import Mathlib

/-!
Verification development for the stock-tracker service (`main.go`).

Embedding conventions:
* Go `float64` values are modelled as exact rationals (`ℚ`); every arithmetic
  expression is translated literally, so the embedded computation is the
  expression the code evaluates (the code applies no rounding of its own).
* The environment and the network are oracles passed as parameters.
* The buffered channel `updates` (capacity 128) is a list of pending values;
  `select { case updates <- data: default: }` becomes a total function.
* The websocket client registry (`map[*websocket.Conn]bool`) is a duplicate-free
  list of connection identifiers.
* `log.Fatal` terminates the process, so `main` is modelled as a startup
  function returning either a fatal exit or the started server.
-/

namespace StockTracker

/-- Model of Go `strings.TrimSpace`: drop whitespace characters from both
ends of the string. -/
def trimSpace (s : String) : String :=
  String.mk (((s.toList.dropWhile Char.isWhitespace).reverse.dropWhile
    Char.isWhitespace).reverse)

/-- `StockData` from main.go: symbol, price, percent change. -/
structure StockData where
  symbol : String
  price : ℚ
  change : ℚ
deriving DecidableEq

/-- The Go zero value `StockData{}`. -/
def zeroStock : StockData := { symbol := "", price := 0, change := 0 }

/-! ### Modelling `strconv.ParseFloat` and `strconv.Atoi` -/

/-- Numeric value of a decimal digit character, `none` if not a digit. -/
def digitVal (c : Char) : Option Nat :=
  if c.isDigit then some (c.toNat - 48) else none

/-- Parse a non-empty run of decimal digits to a natural number;
`none` if the list is empty or contains a non-digit. -/
def parseDigits (cs : List Char) : Option Nat :=
  if cs.isEmpty then none
  else
    cs.foldl (fun acc c =>
      match acc, digitVal c with
      | some n, some d => some (n * 10 + d)
      | _, _ => none) (some 0)

/-- Split a leading run of decimal digits from the rest. -/
def takeDigits : List Char → List Char × List Char
  | [] => ([], [])
  | c :: rest =>
    if c.isDigit then
      let (ds, r) := takeDigits rest
      (c :: ds, r)
    else ([], c :: rest)

/-- Value of a digit run (most significant first). -/
def digitsToNat (ds : List Char) : Nat :=
  ds.foldl (fun a c => a * 10 + (c.toNat - 48)) 0

/-- Strip an optional leading sign; returns (isNegative, rest). -/
def stripSign : List Char → Bool × List Char
  | '+' :: rest => (false, rest)
  | '-' :: rest => (true, rest)
  | cs => (false, cs)

/-- Parse the mantissa part of a Go decimal float literal:
digits, digits.digits, or .digits (at least one digit in total).
Returns the value and the unconsumed remainder. -/
def parseMantissa (cs : List Char) : Option (ℚ × List Char) :=
  let (ip, r1) := takeDigits cs
  match r1 with
  | '.' :: r2 =>
    let (fp, r3) := takeDigits r2
    if ip.isEmpty && fp.isEmpty then none
    else some ((digitsToNat ip : ℚ) + (digitsToNat fp : ℚ) / ((10 : ℚ) ^ fp.length), r3)
  | _ => if ip.isEmpty then none else some ((digitsToNat ip : ℚ), r1)

/-- Parse a signed decimal exponent (after the `e`/`E`). -/
def parseSignedDigits (cs : List Char) : Option Int :=
  let (neg, ds) := stripSign cs
  match parseDigits ds with
  | none => none
  | some n => some (if neg then -(n : Int) else (n : Int))

/-- Model of `strconv.ParseFloat(s, 64)` on finite decimal inputs, with the
value carried exactly in `ℚ` (the double-rounding of the bit pattern is
outside this model, as is the non-finite `Inf`/`NaN` syntax): optional sign,
decimal mantissa, optional `e`/`E` exponent, nothing left over. -/
def parseFloatOpt (s : String) : Option ℚ :=
  let (neg, cs) := stripSign s.toList
  match parseMantissa cs with
  | none => none
  | some (m, rest) =>
    let signed := if neg then -m else m
    match rest with
    | [] => some signed
    | c :: r =>
      if c = 'e' ∨ c = 'E' then
        match parseSignedDigits r with
        | none => none
        | some e => if r.isEmpty then none else some (signed * (10 : ℚ) ^ e)
      else none

/-- `parseFloat` from main.go: `strconv.ParseFloat` with the error discarded,
so any unparsable string yields the zero value `0.0`. -/
def parseFloat (s : String) : ℚ :=
  (parseFloatOpt s).getD 0

/-- Signed 64-bit integer upper bound (Go `int` on a 64-bit platform). -/
def int64Max : Nat := 2 ^ 63 - 1

/-- Model of `strconv.Atoi`: optional sign, non-empty digit run, and the
result must fit in a signed 64-bit `int` (out-of-range input is an error,
just like a malformed one, since the caller only checks `err != nil`). -/
def atoi (s : String) : Option Int :=
  let (neg, ds) := stripSign s.toList
  match parseDigits ds with
  | none => none
  | some n =>
    if neg then
      if n ≤ 2 ^ 63 then some (-(n : Int)) else none
    else
      if n ≤ int64Max then some (n : Int) else none

/-! ### Configuration -/

/-- `getSymbols` from main.go: comma-separated `STOCK_SYMBOLS`, trimmed,
empty entries dropped, defaulting to `["AAPL", "GOOGL"]`. -/
def getSymbols (env : String) : List String :=
  let v := trimSpace env
  if v = "" then ["AAPL", "GOOGL"]
  else
    let parts := v.splitOn ","
    let out := (parts.map trimSpace).filter (fun p => p ≠ "")
    if out.isEmpty then ["AAPL", "GOOGL"] else out

/-- `time.Second`: one second in nanoseconds, the unit of `time.Duration`. -/
def timeSecond : Int := 1000000000

/-- Two's-complement wraparound into the signed 64-bit range
[-2^63, 2^63-1], the semantics of Go `int64` multiplication overflow. -/
def wrapInt64 (n : Int) : Int :=
  (n + 9223372036854775808) % 18446744073709551616 - 9223372036854775808

/-- `getPollInterval` from main.go, returning the `time.Duration` (an
`int64` count of nanoseconds): `POLL_SECONDS` trimmed; empty, unparsable,
or non-positive values fall back to `60 * time.Second`; otherwise the
result is `time.Duration(seconds) * time.Second`, an `int64`
multiplication that wraps around on overflow. -/
def getPollInterval (env : String) : Int :=
  let v := trimSpace env
  if v = "" then 60 * timeSecond
  else
    match atoi v with
    | none => 60 * timeSecond
    | some seconds =>
      if seconds ≤ 0 then 60 * timeSecond
      else wrapInt64 (seconds * timeSecond)

/-! ### Quote client (`fetchStock`) -/

/-- The errors `fetchStock` can return (`error != nil` in Go). -/
inductive GoErr where
  /-- `fmt.Errorf("missing ALPHA_VANTAGE_KEY")` -/
  | missingKey : GoErr
  /-- `http.Get` returned an error (network request not completed). -/
  | getErr : GoErr
  /-- `json.NewDecoder(...).Decode` returned an error (schema parse failure). -/
  | decodeErr : GoErr
deriving DecidableEq

/-- Outcome of the outbound provider call for one symbol: the network
request fails, the body fails to decode as `AlphaVantageResponse`, or it
decodes to a `Global Quote` string map (modelled as an association list). -/
inductive ProviderResp where
  | getError : ProviderResp
  | decodeError : ProviderResp
  | ok (quote : List (String × String)) : ProviderResp
deriving DecidableEq

/-- Go map indexing `m[k]` on a `map[string]string`: the stored value, or
the zero value `""` when the key is absent. -/
def mapGet (m : List (String × String)) (k : String) : String :=
  match m.find? (fun p => p.1 == k) with
  | some p => p.2
  | none => ""

/-- `fetchStock` from main.go. Parameters: the (trimmed-to-be-tested)
`ALPHA_VANTAGE_KEY` environment value, the symbol, and the provider-call
outcome. Returns the Go triple `(StockData, bool, error)`. -/
def fetchStock (key : String) (symbol : String) (resp : ProviderResp) :
    StockData × Bool × Option GoErr :=
  if trimSpace key = "" then (zeroStock, false, some .missingKey)
  else
    match resp with
    | .getError => (zeroStock, false, some .getErr)
    | .decodeError => (zeroStock, false, some .decodeErr)
    | .ok quote =>
      if quote.length = 0 then (zeroStock, false, none)
      else
        let current := parseFloat (mapGet quote "05. price")
        let previous := parseFloat (mapGet quote "08. previous close")
        if previous = 0 then (zeroStock, false, none)
        else
          let change := ((current - previous) / previous) * 100
          ({ symbol := symbol, price := current, change := change }, true, none)

/-! ### Update channel -/

/-- Capacity of the buffered channel `updates = make(chan StockData, 128)`. -/
def chanCapacity : Nat := 128

/-- `pushUpdate` from main.go: `select { case updates <- data: default: }`.
A send on a buffered channel succeeds iff the buffer is below capacity;
the `default` arm makes the attempt non-blocking and drops `data` when the
buffer is full. The channel buffer is the list of pending values, oldest
first. -/
def pushUpdate (chan : List StockData) (data : StockData) : List StockData :=
  if chan.length < chanCapacity then chan ++ [data] else chan

/-! ### Ranked store (Redis sorted set `leaderboard`) -/

/-- `redisClient.ZAdd(ctx, "leaderboard", &redis.Z{Score, Member})`:
last-write-wins per member in the sorted set, modelled as an association
list from symbol to score. -/
def zadd (store : List (String × ℚ)) (symbol : String) (score : ℚ) :
    List (String × ℚ) :=
  if store.any (fun p => p.1 == symbol) then
    store.map (fun p => if p.1 == symbol then (symbol, score) else p)
  else store ++ [(symbol, score)]

/-! ### Poller (`fetchLoop`'s per-cycle `update` closure) -/

/-- Observable state threaded through one poll cycle: the channel buffer,
the ranked store, a count of ranked-store writes issued, and a count of
`log.Println` calls. -/
structure PollState where
  chan : List StockData
  store : List (String × ℚ)
  writes : Nat
  logs : Nat
deriving DecidableEq

/-- One iteration of the `for _, symbol := range getSymbols()` body in
`fetchLoop`: on error log and continue; on `!ok` continue; on success
perform the `ZAdd` then the `pushUpdate`. -/
def stepSymbol (key : String) (resps : String → ProviderResp)
    (st : PollState) (symbol : String) : PollState :=
  match fetchStock key symbol (resps symbol) with
  | (_, _, some _) => { st with logs := st.logs + 1 }
  | (_, false, none) => st
  | (data, true, none) =>
    { st with
      store := zadd st.store data.symbol data.change
      writes := st.writes + 1
      chan := pushUpdate st.chan data }

/-- One full poll cycle: the `update` closure in `fetchLoop`, iterating the
configured symbols in order. -/
def updateCycle (key : String) (symbols : List String)
    (resps : String → ProviderResp) (st : PollState) : PollState :=
  symbols.foldl (stepSymbol key resps) st

/-- Whether `fetchStock` classifies a symbol as a success (`ok && err == nil`). -/
def fetchOk (key : String) (symbol : String) (resp : ProviderResp) : Bool :=
  match fetchStock key symbol resp with
  | (_, true, none) => true
  | _ => false

/-- Number of successfully fetched symbols in a cycle. -/
def successCount (key : String) (symbols : List String)
    (resps : String → ProviderResp) : Nat :=
  (symbols.filter (fun s => fetchOk key s (resps s))).length

/-! ### Subscriber registry and broadcaster -/

/-- `clients[conn] = true` in `handleWebSocket`: register a connection
(a Go map write; a no-op on the key set if already present). -/
def addClient (reg : List Nat) (c : Nat) : List Nat :=
  if c ∈ reg then reg else reg ++ [c]

/-- `delete(clients, conn)`: remove a connection from the registry, a no-op
when absent. Called from both the broadcaster delivery-failure path and the
`handleWebSocket` deferred cleanup. -/
def removeClient (reg : List Nat) (c : Nat) : List Nat :=
  reg.erase c

/-- One dequeued update processed by `broadcaster`: iterate the registry,
call `conn.WriteJSON(data)` on every member, and on failure `conn.Close()`
and `delete(clients, conn)`. `writeFails c` is the oracle for whether the
write to `c` errors. Returns `(attempted, closed, registry)`: the
connections whose write was attempted, those closed, and the registry
afterwards. -/
def broadcastUpdate : List Nat → (Nat → Bool) → List Nat × List Nat × List Nat
  | [], _ => ([], [], [])
  | c :: rest, writeFails =>
    let (att, cl, reg) := broadcastUpdate rest writeFails
    if writeFails c then (c :: att, c :: cl, reg)
    else (c :: att, cl, c :: reg)

/-! ### Startup (`main`) -/

/-- Outcome of process startup. -/
inductive StartupOutcome where
  /-- `log.Fatal` printed the message and exited; nothing was started. -/
  | fatalExit (msg : String) : StartupOutcome
  /-- The broadcaster and poller goroutines were started and the HTTP
  server is listening on `:8081`. -/
  | running : StartupOutcome
deriving DecidableEq

/-- `main` from main.go: the `ALPHA_VANTAGE_KEY` check is the first
statement; `log.Fatal` exits before `go broadcaster()`, `go fetchLoop()`,
or `r.Run(":8081")` execute. -/
def mainStartup (alphaKey : String) : StartupOutcome :=
  if trimSpace alphaKey = "" then .fatalExit "missing ALPHA_VANTAGE_KEY"
  else .running

/-! ### Helper lemmas -/

/-- `stepSymbol` on a fetch error only increments the log counter. -/
lemma stepSymbol_err (key : String) (resps : String → ProviderResp)
    (st : PollState) (s : String)
    (h : (fetchStock key s (resps s)).2.2.isSome) :
    stepSymbol key resps st s = { st with logs := st.logs + 1 } := by
  unfold stepSymbol
  rcases hf : fetchStock key s (resps s) with ⟨d, ok, err⟩
  rw [hf] at h
  cases err with
  | none => simp at h
  | some e => simp

/-- The per-symbol step bumps the write counter exactly on a success. -/
lemma stepSymbol_writes (key : String) (resps : String → ProviderResp)
    (st : PollState) (s : String) :
    (stepSymbol key resps st s).writes =
      st.writes + (if fetchOk key s (resps s) then 1 else 0) := by
  unfold stepSymbol fetchOk
  rcases hf : fetchStock key s (resps s) with ⟨d, ok, err⟩
  cases ok <;> cases err <;> simp

/-- Write count over a full cycle: initial count plus one per success. -/
lemma updateCycle_writes (key : String) (symbols : List String)
    (resps : String → ProviderResp) :
    ∀ st : PollState,
      (updateCycle key symbols resps st).writes =
        st.writes + successCount key symbols resps := by
  induction symbols with
  | nil => intro st; simp [updateCycle, successCount]
  | cons s rest ih =>
    intro st
    show (updateCycle key rest resps (stepSymbol key resps st s)).writes = _
    rw [ih, stepSymbol_writes]
    simp only [successCount, List.filter_cons]
    by_cases h : fetchOk key s (resps s) <;> simp [h]
    omega

/-- Wrapping is the identity on values already in the `int64` range. -/
lemma wrapInt64_eq_self (n : Int)
    (h1 : -9223372036854775808 ≤ n) (h2 : n ≤ 9223372036854775807) :
    wrapInt64 n = n := by
  unfold wrapInt64
  omega

/-- `broadcastUpdate` attempts every member, closes exactly the failing
ones, and keeps exactly the non-failing ones. -/
lemma broadcastUpdate_eq (reg : List Nat) (wf : Nat → Bool) :
    broadcastUpdate reg wf = (reg, reg.filter wf, reg.filter (fun c => !wf c)) := by
  induction reg with
  | nil => rfl
  | cons c rest ih =>
    by_cases h : wf c <;> simp [broadcastUpdate, ih, h, List.filter_cons]

/-! ### Claim theorems -/

/-- C1: `pushUpdate` is a non-blocking enqueue (modelled as a total
function on the buffer — it always returns, either appending the update or
leaving the buffer as is); when the channel already holds 128 buffered
updates the newest attempted enqueue is discarded and the buffered contents
are unchanged; and over one poll cycle the total ranked-store writes equal
the number of successfully fetched symbols, for every channel state. -/
theorem c1_channel_nonblocking_drop_newest_writes_count
    (chanBuf : List StockData) (d : StockData)
    (key : String) (symbols : List String)
    (resps : String → ProviderResp) (st : PollState)
    (hfull : chanBuf.length = 128) :
    pushUpdate chanBuf d = chanBuf ∧
    (∀ (buf : List StockData) (d2 : StockData),
      pushUpdate buf d2 = buf ++ [d2] ∨ pushUpdate buf d2 = buf) ∧
    (updateCycle key symbols resps st).writes =
      st.writes + successCount key symbols resps := by
  refine ⟨?_, ?_, updateCycle_writes key symbols resps st⟩
  · unfold pushUpdate chanCapacity
    rw [hfull]
    simp
  · intro buf d2
    unfold pushUpdate
    split
    · exact Or.inl rfl
    · exact Or.inr rfl

/-- Witness for C1 at a concrete full channel and a one-symbol cycle. -/
theorem c1_channel_nonblocking_drop_newest_writes_count_witness :
    (List.replicate 128 zeroStock).length = 128 ∧
    (pushUpdate (List.replicate 128 zeroStock) zeroStock =
      List.replicate 128 zeroStock ∧
    (∀ (buf : List StockData) (d2 : StockData),
      pushUpdate buf d2 = buf ++ [d2] ∨ pushUpdate buf d2 = buf) ∧
    (updateCycle "k" ["AAPL"]
        (fun _ => .ok [("05. price", "110"), ("08. previous close", "100")])
        ⟨[], [], 0, 0⟩).writes =
      (PollState.mk [] [] 0 0).writes +
        successCount "k" ["AAPL"]
          (fun _ => .ok [("05. price", "110"), ("08. previous close", "100")])) :=
  ⟨by simp,
    c1_channel_nonblocking_drop_newest_writes_count
      (List.replicate 128 zeroStock) zeroStock "k" ["AAPL"]
      (fun _ => .ok [("05. price", "110"), ("08. previous close", "100")])
      ⟨[], [], 0, 0⟩ (by simp)⟩

/-- C2: with a configured key, a decoded non-empty quote, and a non-zero
previous close, `fetchStock` succeeds and the update's change field is
exactly `((current − previous) / previous) * 100` — the literal expression
the code evaluates, with no rounding of its own (float64 values are carried
exactly as rationals in this model); in particular current 110 and previous
100 give change 10. -/
theorem c2_percent_change_formula (key sym : String)
    (quote : List (String × String))
    (hkey : trimSpace key ≠ "") (hne : quote.length ≠ 0)
    (hprev : parseFloat (mapGet quote "08. previous close") ≠ 0) :
    fetchStock key sym (.ok quote) =
      ({ symbol := sym,
         price := parseFloat (mapGet quote "05. price"),
         change := ((parseFloat (mapGet quote "05. price") -
             parseFloat (mapGet quote "08. previous close")) /
             parseFloat (mapGet quote "08. previous close")) * 100 },
        true, none) ∧
    fetchStock "k" "AAPL"
        (.ok [("05. price", "110"), ("08. previous close", "100")]) =
      ({ symbol := "AAPL", price := 110, change := 10 }, true, none) := by
  have hgen : ∀ (k s : String) (q : List (String × String)),
      trimSpace k ≠ "" → q.length ≠ 0 →
      parseFloat (mapGet q "08. previous close") ≠ 0 →
      fetchStock k s (.ok q) =
        ({ symbol := s,
           price := parseFloat (mapGet q "05. price"),
           change := ((parseFloat (mapGet q "05. price") -
               parseFloat (mapGet q "08. previous close")) /
               parseFloat (mapGet q "08. previous close")) * 100 },
          true, none) := by
    intro k s q hk hn hp
    simp [fetchStock, hk, hn, hp]
  refine ⟨hgen key sym quote hkey hne hprev, ?_⟩
  rw [hgen "k" "AAPL" _ (by decide) (by decide) (by decide)]
  have h110 : parseFloat (mapGet
      [("05. price", "110"), ("08. previous close", "100")] "05. price") =
      110 := by decide
  have h100 : parseFloat (mapGet
      [("05. price", "110"), ("08. previous close", "100")]
      "08. previous close") = 100 := by decide
  rw [h110, h100]
  norm_num [StockData.mk.injEq, Prod.mk.injEq]

/-- Witness for C2 at the quote {price 110, previous close 100}. -/
theorem c2_percent_change_formula_witness :
    trimSpace "k" ≠ "" ∧
    ([("05. price", "110"), ("08. previous close", "100")] :
      List (String × String)).length ≠ 0 ∧
    parseFloat (mapGet [("05. price", "110"), ("08. previous close", "100")]
      "08. previous close") ≠ 0 ∧
    (fetchStock "k" "GOOGL"
        (.ok [("05. price", "110"), ("08. previous close", "100")]) =
      ({ symbol := "GOOGL",
         price := parseFloat (mapGet
           [("05. price", "110"), ("08. previous close", "100")] "05. price"),
         change := ((parseFloat (mapGet
               [("05. price", "110"), ("08. previous close", "100")]
               "05. price") -
             parseFloat (mapGet
               [("05. price", "110"), ("08. previous close", "100")]
               "08. previous close")) /
             parseFloat (mapGet
               [("05. price", "110"), ("08. previous close", "100")]
               "08. previous close")) * 100 },
        true, none) ∧
    fetchStock "k" "AAPL"
        (.ok [("05. price", "110"), ("08. previous close", "100")]) =
      ({ symbol := "AAPL", price := 110, change := 10 }, true, none)) :=
  ⟨by decide, by decide, by decide,
    c2_percent_change_formula "k" "GOOGL"
      [("05. price", "110"), ("08. previous close", "100")]
      (by decide) (by decide) (by decide)⟩

/-- C3: with a configured key, a well-formed response that is data-less
(empty quote map) or whose previous close parses to exactly zero makes
`fetchStock` return the Empty outcome `(ok = false, err = nil)` rather than
an error, and the poll step for that symbol leaves the channel, the ranked
store, and even the log counter unchanged. -/
theorem c3_zero_prev_close_is_empty (key sym : String)
    (quote : List (String × String))
    (resps : String → ProviderResp) (st : PollState)
    (hkey : trimSpace key ≠ "")
    (hresp : resps sym = .ok quote)
    (h : quote.length = 0 ∨ parseFloat (mapGet quote "08. previous close") = 0) :
    fetchStock key sym (.ok quote) = (zeroStock, false, none) ∧
    stepSymbol key resps st sym = st := by
  have hfetch : fetchStock key sym (.ok quote) = (zeroStock, false, none) := by
    rcases h with h | h
    · simp [fetchStock, hkey, h]
    · unfold fetchStock
      rw [if_neg hkey]
      by_cases hl : quote.length = 0
      · simp [hl]
      · simp [hl, h]
  refine ⟨hfetch, ?_⟩
  unfold stepSymbol
  rw [hresp, hfetch]

/-- Witness for C3 at a quote whose previous close is the string "0". -/
theorem c3_zero_prev_close_is_empty_witness :
    trimSpace "k" ≠ "" ∧
    ((fun _ => ProviderResp.ok
        [("05. price", "110"), ("08. previous close", "0")]) "AAPL" =
      ProviderResp.ok [("05. price", "110"), ("08. previous close", "0")]) ∧
    (([("05. price", "110"), ("08. previous close", "0")] :
        List (String × String)).length = 0 ∨
      parseFloat (mapGet [("05. price", "110"), ("08. previous close", "0")]
        "08. previous close") = 0) ∧
    (fetchStock "k" "AAPL"
        (.ok [("05. price", "110"), ("08. previous close", "0")]) =
      (zeroStock, false, none) ∧
    stepSymbol "k"
        (fun _ => ProviderResp.ok
          [("05. price", "110"), ("08. previous close", "0")])
        ⟨[], [], 0, 0⟩ "AAPL" = ⟨[], [], 0, 0⟩) :=
  ⟨by decide, rfl, by decide,
    c3_zero_prev_close_is_empty "k" "AAPL"
      [("05. price", "110"), ("08. previous close", "0")]
      (fun _ => ProviderResp.ok
        [("05. price", "110"), ("08. previous close", "0")])
      ⟨[], [], 0, 0⟩ (by decide) rfl (by decide)⟩

/-- C4: with a configured key, `fetchStock` returns a non-nil error exactly
when the network request fails (`http.Get`) or the body fails to decode as
the expected schema (`json.Decode`); and whenever it errors, no update is
produced (`ok = false`) and the poll step performs no enqueue and no
ranked-store write. -/
theorem c4_transport_error_iff (key sym : String) (resp : ProviderResp)
    (resps : String → ProviderResp) (st : PollState)
    (hkey : trimSpace key ≠ "") (hresp : resps sym = resp) :
    (((fetchStock key sym resp).2.2 = some .getErr ∨
        (fetchStock key sym resp).2.2 = some .decodeErr) ↔
      (resp = .getError ∨ resp = .decodeError)) ∧
    ((fetchStock key sym resp).2.2.isSome →
      (fetchStock key sym resp).2.1 = false ∧
      (stepSymbol key resps st sym).chan = st.chan ∧
      (stepSymbol key resps st sym).store = st.store) := by
  constructor
  · cases resp with
    | getError => simp [fetchStock, hkey]
    | decodeError => simp [fetchStock, hkey]
    | ok quote =>
      unfold fetchStock
      rw [if_neg hkey]
      by_cases hl : quote.length = 0
      · simp [hl]
      · by_cases hp : parseFloat (mapGet quote "08. previous close") = 0 <;>
          simp [hl, hp]
  · intro herr
    have hstep : stepSymbol key resps st sym = { st with logs := st.logs + 1 } :=
      stepSymbol_err key resps st sym (by rw [hresp]; exact herr)
    refine ⟨?_, by rw [hstep], by rw [hstep]⟩
    unfold fetchStock at herr ⊢
    rw [if_neg hkey] at herr ⊢
    cases resp with
    | getError => rfl
    | decodeError => rfl
    | ok quote =>
      by_cases hl : quote.length = 0
      · simp [hl]
      · by_cases hp : parseFloat (mapGet quote "08. previous close") = 0
        · simp [hl, hp]
        · simp [hl, hp] at herr

/-- Witness for C4 at a failing network request. -/
theorem c4_transport_error_iff_witness :
    trimSpace "k" ≠ "" ∧
    ((fun _ => ProviderResp.getError) "AAPL" = ProviderResp.getError) ∧
    ((((fetchStock "k" "AAPL" .getError).2.2 = some .getErr ∨
        (fetchStock "k" "AAPL" .getError).2.2 = some .decodeErr) ↔
      (ProviderResp.getError = .getError ∨
        ProviderResp.getError = .decodeError)) ∧
    ((fetchStock "k" "AAPL" .getError).2.2.isSome →
      (fetchStock "k" "AAPL" .getError).2.1 = false ∧
      (stepSymbol "k" (fun _ => ProviderResp.getError)
        ⟨[], [], 0, 0⟩ "AAPL").chan = (PollState.mk [] [] 0 0).chan ∧
      (stepSymbol "k" (fun _ => ProviderResp.getError)
        ⟨[], [], 0, 0⟩ "AAPL").store = (PollState.mk [] [] 0 0).store)) :=
  ⟨by decide, rfl,
    c4_transport_error_iff "k" "AAPL" .getError
      (fun _ => ProviderResp.getError) ⟨[], [], 0, 0⟩ (by decide) rfl⟩

/-- C5: if the provider credential `ALPHA_VANTAGE_KEY` is empty (after
trimming) at startup, `main` exits fatally with the missing-key message
before the broadcaster, the poller, or the HTTP server start, so the
process is never in the running state and the server accepts no
connections. -/
theorem c5_missing_key_fatal (key : String) (h : trimSpace key = "") :
    mainStartup key = .fatalExit "missing ALPHA_VANTAGE_KEY" ∧
    mainStartup key ≠ .running := by
  simp [mainStartup, h]

/-- Witness for C5 at the unset (empty) credential. -/
theorem c5_missing_key_fatal_witness :
    trimSpace "" = "" ∧
    (mainStartup "" = .fatalExit "missing ALPHA_VANTAGE_KEY" ∧
      mainStartup "" ≠ .running) :=
  ⟨by decide, c5_missing_key_fatal "" (by decide)⟩

/-- C6: when processing one dequeued update, a registered subscriber whose
delivery write fails is closed and removed from the registry; the failure
does not stop the write from being attempted for every other registered
subscriber of that same update; and the evicted subscriber is absent from
the next cycle's registry and is attempted no further deliveries,
whatever the next cycle's write outcomes are. -/
theorem c6_failed_subscriber_evicted (reg : List Nat) (wf : Nat → Bool)
    (c : Nat) (hmem : c ∈ reg) (hfail : wf c = true) :
    c ∈ (broadcastUpdate reg wf).2.1 ∧
    c ∉ (broadcastUpdate reg wf).2.2 ∧
    (∀ c2 ∈ reg, c2 ∈ (broadcastUpdate reg wf).1) ∧
    (∀ wf2 : Nat → Bool,
      c ∉ (broadcastUpdate ((broadcastUpdate reg wf).2.2) wf2).1) := by
  rw [broadcastUpdate_eq]
  refine ⟨?_, ?_, ?_, ?_⟩
  · simpa [List.mem_filter] using ⟨hmem, hfail⟩
  · simp [List.mem_filter, hfail]
  · intro c2 h2
    simpa using h2
  · intro wf2
    rw [broadcastUpdate_eq]
    simp [List.mem_filter, hfail]

/-- Witness for C6: subscriber 2 of {1, 2, 3} fails its write. -/
theorem c6_failed_subscriber_evicted_witness :
    2 ∈ [1, 2, 3] ∧ (fun c => c == 2) 2 = true ∧
    (2 ∈ (broadcastUpdate [1, 2, 3] (fun c => c == 2)).2.1 ∧
    2 ∉ (broadcastUpdate [1, 2, 3] (fun c => c == 2)).2.2 ∧
    (∀ c2 ∈ [1, 2, 3],
      c2 ∈ (broadcastUpdate [1, 2, 3] (fun c => c == 2)).1) ∧
    (∀ wf2 : Nat → Bool,
      2 ∉ (broadcastUpdate
        ((broadcastUpdate [1, 2, 3] (fun c => c == 2)).2.2) wf2).1)) :=
  ⟨by decide, by decide,
    c6_failed_subscriber_evicted [1, 2, 3] (fun c => c == 2) 2
      (by decide) (by decide)⟩

/-- C7: a symbol whose fetch errors costs exactly one log line — the step
neither retries nor touches the channel or the store — and the cycle
continues with every remaining symbol processed exactly as it would be:
the cycle over `pre ++ bad :: post` equals the cycle over `post` started
from the state after `pre` with one extra log line. -/
theorem c7_per_symbol_error_isolation (key s : String)
    (pre post : List String) (resps : String → ProviderResp) (st : PollState)
    (herr : (fetchStock key s (resps s)).2.2.isSome) :
    stepSymbol key resps st s = { st with logs := st.logs + 1 } ∧
    updateCycle key (pre ++ s :: post) resps st =
      updateCycle key post resps
        { updateCycle key pre resps st with
          logs := (updateCycle key pre resps st).logs + 1 } := by
  refine ⟨stepSymbol_err key resps st s herr, ?_⟩
  unfold updateCycle
  rw [List.foldl_append, List.foldl_cons,
    stepSymbol_err key resps _ s herr]

/-- Witness for C7: the middle symbol of three fails with a network error,
the outer two succeed. -/
theorem c7_per_symbol_error_isolation_witness :
    (fetchStock "k" "BAD"
      ((fun s => if s = "BAD" then ProviderResp.getError
        else ProviderResp.ok
          [("05. price", "110"), ("08. previous close", "100")]) "BAD")
      ).2.2.isSome ∧
    (stepSymbol "k"
      (fun s => if s = "BAD" then ProviderResp.getError
        else ProviderResp.ok
          [("05. price", "110"), ("08. previous close", "100")])
      ⟨[], [], 0, 0⟩ "BAD" =
      { (PollState.mk [] [] 0 0) with
        logs := (PollState.mk [] [] 0 0).logs + 1 } ∧
    updateCycle "k" (["AAPL"] ++ "BAD" :: ["GOOGL"])
      (fun s => if s = "BAD" then ProviderResp.getError
        else ProviderResp.ok
          [("05. price", "110"), ("08. previous close", "100")])
      ⟨[], [], 0, 0⟩ =
      updateCycle "k" ["GOOGL"]
        (fun s => if s = "BAD" then ProviderResp.getError
          else ProviderResp.ok
            [("05. price", "110"), ("08. previous close", "100")])
        { updateCycle "k" ["AAPL"]
            (fun s => if s = "BAD" then ProviderResp.getError
              else ProviderResp.ok
                [("05. price", "110"), ("08. previous close", "100")])
            ⟨[], [], 0, 0⟩ with
          logs := (updateCycle "k" ["AAPL"]
            (fun s => if s = "BAD" then ProviderResp.getError
              else ProviderResp.ok
                [("05. price", "110"), ("08. previous close", "100")])
            ⟨[], [], 0, 0⟩).logs + 1 }) :=
  ⟨by decide,
    c7_per_symbol_error_isolation "k" "BAD" ["AAPL"] ["GOOGL"]
      (fun s => if s = "BAD" then ProviderResp.getError
        else ProviderResp.ok
          [("05. price", "110"), ("08. previous close", "100")])
      ⟨[], [], 0, 0⟩ (by decide)⟩

/-- C8: removing a subscriber from the registry (a Go map `delete`, called
from both the broadcaster's delivery-failure path and the connection
handler's deferred cleanup) is idempotent: removing an already-removed
subscriber is a no-op, leaving the registry exactly as after the first
removal. The registry, being a map key set, holds no duplicates. -/
theorem c8_remove_idempotent (reg : List Nat) (c : Nat) (hnd : reg.Nodup) :
    removeClient (removeClient reg c) c = removeClient reg c := by
  unfold removeClient
  have hout : c ∉ reg.erase c := fun hc =>
    ((List.Nodup.mem_erase_iff hnd).1 hc).1 rfl
  exact List.erase_of_not_mem hout

/-- Witness for C8 on the registry {1, 2, 3}. -/
theorem c8_remove_idempotent_witness :
    ([1, 2, 3] : List Nat).Nodup ∧
    removeClient (removeClient [1, 2, 3] 2) 2 = removeClient [1, 2, 3] 2 :=
  ⟨by decide, c8_remove_idempotent [1, 2, 3] 2 (by decide)⟩

/-- C9 (amended): the poll interval defaults to 60 seconds: an unset
(empty) `POLL_SECONDS` gives 60 seconds, a value `strconv.Atoi` cannot
parse gives 60 seconds, and a parsed non-positive value gives 60 seconds.
A parsed positive value n gives exactly n seconds only while
`n * time.Second` stays within `int64` (n ≤ 9223372036); beyond that the
`time.Duration(seconds) * time.Second` multiplication wraps around, so the
original claim's unrestricted "for every positive integer value n it is n
seconds" fails (see the counterexample at n = 9223372037). -/
theorem c9_poll_interval (v : String) (s : Int) :
    getPollInterval "" = 60 * timeSecond ∧
    (atoi (trimSpace v) = none → getPollInterval v = 60 * timeSecond) ∧
    (atoi (trimSpace v) = some s → s ≤ 0 →
      getPollInterval v = 60 * timeSecond) ∧
    (atoi (trimSpace v) = some s → 0 < s → s ≤ 9223372036 →
      getPollInterval v = s * timeSecond) := by
  refine ⟨by decide, ?_, ?_, ?_⟩
  · intro h
    unfold getPollInterval
    by_cases h0 : trimSpace v = ""
    · rw [if_pos h0]
    · rw [if_neg h0, h]
  · intro h hle
    unfold getPollInterval
    by_cases h0 : trimSpace v = ""
    · have hA : atoi "" = none := by decide
      rw [h0, hA] at h
      exact Option.noConfusion h
    · rw [if_neg h0, h]
      show (if s ≤ 0 then 60 * timeSecond else wrapInt64 (s * timeSecond)) =
        60 * timeSecond
      rw [if_pos hle]
  · intro h hpos hfit
    unfold getPollInterval
    by_cases h0 : trimSpace v = ""
    · have hA : atoi "" = none := by decide
      rw [h0, hA] at h
      exact Option.noConfusion h
    · rw [if_neg h0, h]
      show (if s ≤ 0 then 60 * timeSecond else wrapInt64 (s * timeSecond)) =
        s * timeSecond
      rw [if_neg (by omega)]
      apply wrapInt64_eq_self <;> unfold timeSecond <;> omega

/-- Witness for C9 at `POLL_SECONDS = "7"`. -/
theorem c9_poll_interval_witness :
    atoi (trimSpace "7") = some 7 ∧ (0 : Int) < 7 ∧ (7 : Int) ≤ 9223372036 ∧
    getPollInterval "" = 60 * timeSecond ∧
    getPollInterval "7" = 7 * timeSecond :=
  ⟨by decide, by decide, by decide, (c9_poll_interval "7" 7).1,
    (c9_poll_interval "7" 7).2.2.2 (by decide) (by decide) (by decide)⟩

/-- Counterexample to C9 as stated: `POLL_SECONDS = "9223372037"` parses
to the positive integer 9223372037, yet the configured interval is not
9223372037 seconds — the `int64` nanosecond multiplication wraps to a
negative duration. -/
theorem c9_poll_interval_counterexample :
    atoi (trimSpace "9223372037") = some 9223372037 ∧
    (0 : Int) < 9223372037 ∧
    getPollInterval "9223372037" ≠ 9223372037 * timeSecond ∧
    getPollInterval "9223372037" = -9223372036709551616 := by
  refine ⟨by decide, by decide, by decide, by decide⟩

/-- C10: `parseFloat` swallows parse errors and returns the zero value 0.0
for every string `strconv.ParseFloat` rejects; consequently a well-formed
non-empty quote whose price field is absent or non-numeric, but whose
previous close parses to a non-zero value, is classified as a success and
yields an update with price 0 and change exactly −100, rather than a
transport error or an empty result. -/
theorem c10_unparsable_price_minus_100 (key sym : String)
    (quote : List (String × String))
    (hkey : trimSpace key ≠ "") (hne : quote.length ≠ 0)
    (hprice : parseFloatOpt (mapGet quote "05. price") = none)
    (hprev : parseFloat (mapGet quote "08. previous close") ≠ 0) :
    (∀ str : String, parseFloatOpt str = none → parseFloat str = 0) ∧
    fetchStock key sym (.ok quote) =
      ({ symbol := sym, price := 0, change := -100 }, true, none) := by
  have hzero : ∀ str : String, parseFloatOpt str = none → parseFloat str = 0 := by
    intro str h
    simp [parseFloat, h]
  refine ⟨hzero, ?_⟩
  have hp0 : parseFloat (mapGet quote "05. price") = 0 := hzero _ hprice
  have hchange : ((0 - parseFloat (mapGet quote "08. previous close")) /
      parseFloat (mapGet quote "08. previous close")) * 100 = -100 := by
    rw [zero_sub, neg_div, div_self hprev]
    norm_num
  simp [fetchStock, hkey, hne, hprev, hp0, hchange]

/-- Witness for C10: the provider response carries only a previous close
of 100; the price field is absent, so the Go map read yields `""`. -/
theorem c10_unparsable_price_minus_100_witness :
    trimSpace "k" ≠ "" ∧
    ([("08. previous close", "100")] : List (String × String)).length ≠ 0 ∧
    parseFloatOpt (mapGet [("08. previous close", "100")] "05. price") = none ∧
    parseFloat (mapGet [("08. previous close", "100")] "08. previous close") ≠ 0 ∧
    ((∀ str : String, parseFloatOpt str = none → parseFloat str = 0) ∧
    fetchStock "k" "AAPL" (.ok [("08. previous close", "100")]) =
      ({ symbol := "AAPL", price := 0, change := -100 }, true, none)) :=
  ⟨by decide, by decide, by decide, by decide,
    c10_unparsable_price_minus_100 "k" "AAPL" [("08. previous close", "100")]
      (by decide) (by decide) (by decide) (by decide)⟩

end StockTracker





